import Mathlib

/-!
Verification of the payment-retry decision engine in
server/src/service/payment/handlers/handle_failed_pull_funds.ts and
handle_retry.ts, together with the pull_funds failure branch and the
Payment model.

Dates are modelled at calendar-day resolution: a JavaScript Date is
represented by its epoch day number (an integer, 1970-01-01 = day 0).
Every comparison the source performs between two Date values is either a
comparison between two values built at local midnight, or a comparison
whose outcome at day resolution agrees with the millisecond outcome for
the properties verified here, so nothing the claims depend on is lost.
The civil-calendar conversions below implement exactly the proleptic
Gregorian calendar that the JavaScript Date object implements
(months normalised with floor division, day-of-month overflow carrying
into later months), so the embedded date functions agree with the
source on every input.
-/

namespace Retry

/-- Day of era of an epoch day (1970-01-01 is day 0): offset into the
400-year Gregorian era containing the day. -/
def doe0 (z : ℤ) : ℤ := (z + 719468) % 146097

/-- Era number of an epoch day (eras are the 400-year Gregorian cycles,
era 0 beginning 0000-03-01). -/
def era0 (z : ℤ) : ℤ := (z + 719468) / 146097

/-- Year of era (0..399, March-based) of an epoch day. -/
def yoe0 (z : ℤ) : ℤ :=
  (doe0 z - doe0 z / 1460 + doe0 z / 36524 - doe0 z / 146096) / 365

/-- Day of year (March-based, 0..365) of an epoch day. -/
def doy0 (z : ℤ) : ℤ := doe0 z - (365 * yoe0 z + yoe0 z / 4 - yoe0 z / 100)

/-- March-based month number (0 = March .. 11 = February) of an epoch day. -/
def mp0 (z : ℤ) : ℤ := (5 * doy0 z + 2) / 153

/-- Civil day of month (1-based) of an epoch day. -/
def cday (z : ℤ) : ℤ := doy0 z - (153 * mp0 z + 2) / 5 + 1

/-- Civil month (1..12) of an epoch day. -/
def cmonth (z : ℤ) : ℤ := if mp0 z < 10 then mp0 z + 3 else mp0 z - 9

/-- Civil year of an epoch day. -/
def cyear (z : ℤ) : ℤ :=
  if cmonth z ≤ 2 then yoe0 z + era0 z * 400 + 1 else yoe0 z + era0 z * 400

/-- Civil (proleptic Gregorian) date of an epoch day (1970-01-01 is day 0).
Returns (year, month 1..12, day 1..days-in-month). This is the standard
era-based conversion; correctness is proved in civilOfDay_char below. -/
def civilOfDay (z : ℤ) : ℤ × ℤ × ℤ := (cyear z, cmonth z, cday z)

/-- Epoch day of a civil date; the inverse of civilOfDay on months 1..12. -/
def dayOfCivil (y m d : ℤ) : ℤ :=
  let y' := if m ≤ 2 then y - 1 else y
  let era := y' / 400
  let yoe := y' % 400
  let mp := if 2 < m then m - 3 else m + 9
  let doy := (153 * mp + 2) / 5 + d - 1
  let doe := yoe * 365 + yoe / 4 - yoe / 100 + doy
  era * 146097 + doe - 719468

/-- Epoch day built the way the JavaScript Date constructor builds one from
(year, 0-based month, day): the month is normalised with floor division and
the day may be any integer, overflowing into neighbouring months. -/
def mkDateJs (y m d : ℤ) : ℤ :=
  dayOfCivil (y + m / 12) (m % 12 + 1) 1 + (d - 1)

/-- Day of week of an epoch day, exactly as JavaScript getDay:
0 = Sunday, 5 = Friday (1970-01-01 was a Thursday, value 4). -/
def weekday (z : ℤ) : ℤ := (z + 4) % 7

/-- JavaScript getFullYear of an epoch day. -/
def yearOf (z : ℤ) : ℤ := cyear z

/-- JavaScript getMonth of an epoch day (0-based month). -/
def monthOf (z : ℤ) : ℤ := cmonth z - 1

/-- JavaScript getDate of an epoch day (1-based day of month). -/
def dateOf (z : ℤ) : ℤ := cday z

/-- Number of days in a civil month (month 1..12). -/
def daysInMonth (y m : ℤ) : ℤ :=
  if m = 2 then (if (y % 4 = 0 ∧ ¬ y % 100 = 0) ∨ y % 400 = 0 then 29 else 28)
  else if m = 4 ∨ m = 6 ∨ m = 9 ∨ m = 11 then 30
  else 31

/-- JavaScript setMonth(m) applied to an epoch day: same year and
day-of-month, month replaced (day-of-month overflow carries over,
exactly as in the source's nextMonth computation). -/
def jsSetMonth (z m : ℤ) : ℤ := mkDateJs (yearOf z) m (dateOf z)

/-- Month counter used to linearise civil months: month m (1-based) of
year y has index 12 * y + (m - 1); monthStartI gives its first epoch day. -/
def monthStartI (μ : ℤ) : ℤ := dayOfCivil (μ / 12) (μ % 12 + 1) 1

/-- Linearised month index of the civil month containing an epoch day. -/
def monthIdxOf (z : ℤ) : ℤ := 12 * cyear z + (cmonth z - 1)

example : civilOfDay 0 = (1970, 1, 1) := by decide
example : civilOfDay 20119 = (2025, 1, 31) := by decide
example : dayOfCivil 2025 3 28 = 20175 := by decide
example : weekday 20119 = 5 := by decide

set_option maxHeartbeats 4000000 in
/-- Core arithmetic fact behind the civil conversion: the year-of-era
formula finds exactly the year whose first day is at or before the given
day-of-era, with the next year's first day strictly after it. -/
theorem yoe_bounds (doe : ℤ) (h0 : 0 ≤ doe) (h1 : doe ≤ 146096) :
    0 ≤ (doe - doe / 1460 + doe / 36524 - doe / 146096) / 365 ∧
    (doe - doe / 1460 + doe / 36524 - doe / 146096) / 365 ≤ 399 ∧
    (365 * ((doe - doe / 1460 + doe / 36524 - doe / 146096) / 365) +
      ((doe - doe / 1460 + doe / 36524 - doe / 146096) / 365) / 4 -
      ((doe - doe / 1460 + doe / 36524 - doe / 146096) / 365) / 100 ≤ doe ∧
    doe < 365 * ((doe - doe / 1460 + doe / 36524 - doe / 146096) / 365 + 1) +
      ((doe - doe / 1460 + doe / 36524 - doe / 146096) / 365 + 1) / 4 -
      ((doe - doe / 1460 + doe / 36524 - doe / 146096) / 365 + 1) / 100 +
      ((doe - doe / 1460 + doe / 36524 - doe / 146096) / 365 + 1) / 400) := by
  generalize hy : (doe - doe / 1460 + doe / 36524 - doe / 146096) / 365 = yoe
  have hlo : 0 ≤ yoe := by omega
  have hhi : yoe ≤ 399 := by omega
  have hdiv : 365 * yoe ≤ doe - doe / 1460 + doe / 36524 - doe / 146096 ∧
      doe - doe / 1460 + doe / 36524 - doe / 146096 ≤ 365 * yoe + 364 := by omega
  refine ⟨hlo, hhi, ?_⟩
  clear hy
  interval_cases yoe <;> omega

/-- Arithmetic bridges connecting era-shifted divisions and remainders to
their within-era counterparts; these compensate for the solver treating
syntactically different division terms as unrelated atoms. -/
theorem civil_bridges (era yoe : ℤ) (h0 : 0 ≤ yoe) (h1 : yoe ≤ 399) :
    (yoe + era * 400) / 400 = era ∧
    (yoe + era * 400) % 400 = yoe ∧
    (yoe + era * 400 + 1 - 1) / 400 = era ∧
    (yoe + era * 400 + 1 - 1) % 400 = yoe ∧
    yoe % 400 / 4 = yoe / 4 ∧
    yoe % 400 / 100 = yoe / 100 ∧
    (yoe + era * 400 + 1) % 4 = (yoe + 1) % 4 ∧
    (yoe + era * 400 + 1) % 100 = (yoe + 1) % 100 ∧
    (yoe + era * 400 + 1) % 400 = (yoe + 1) % 400 ∧
    (yoe + era * 400 + 1) / 4 = (yoe + 1) / 4 + era * 100 ∧
    (yoe + era * 400 + 1) / 100 = (yoe + 1) / 100 + era * 4 ∧
    (yoe + era * 400 + 1) / 400 = (yoe + 1) / 400 + era ∧
    (yoe + era * 400) / 4 = yoe / 4 + era * 100 ∧
    (yoe + era * 400) / 100 = yoe / 100 + era * 4 ∧
    (yoe + era * 400) % 4 = yoe % 4 ∧
    (yoe + era * 400) % 100 = yoe % 100 := by
  refine ⟨?_, ?_, ?_, ?_, ?_, ?_, ?_, ?_, ?_, ?_, ?_, ?_, ?_, ?_, ?_, ?_⟩ <;> omega

/-- Length of a March-based year of era: one day more than 365 exactly when
the civil year it runs into is a Gregorian leap year. -/
theorem leap_delta (yoe : ℤ) (h0 : 0 ≤ yoe) (h1 : yoe ≤ 399) :
    (((yoe + 1) % 4 = 0 ∧ ¬ (yoe + 1) % 100 = 0) ∨ (yoe + 1) % 400 = 0 →
      365 * (yoe + 1) + (yoe + 1) / 4 - (yoe + 1) / 100 + (yoe + 1) / 400
        = 365 * yoe + yoe / 4 - yoe / 100 + 366) ∧
    (¬ (((yoe + 1) % 4 = 0 ∧ ¬ (yoe + 1) % 100 = 0) ∨ (yoe + 1) % 400 = 0) →
      365 * (yoe + 1) + (yoe + 1) / 4 - (yoe + 1) / 100 + (yoe + 1) / 400
        = 365 * yoe + yoe / 4 - yoe / 100 + 365) := by
  constructor <;> intro h <;> omega

set_option maxHeartbeats 2000000 in
/-- Core correctness of the era-based civil conversion, stated over free
variables constrained by the defining equations of the conversion: the
computed month and day are a valid civil date and converting back gives
the original day number. -/
theorem civil_core (doe era yoe doy mp d m y : ℤ)
    (h0 : 0 ≤ doe) (h1 : doe ≤ 146096)
    (hyoe : yoe = (doe - doe / 1460 + doe / 36524 - doe / 146096) / 365)
    (hdoy : doy = doe - (365 * yoe + yoe / 4 - yoe / 100))
    (hmp : mp = (5 * doy + 2) / 153)
    (hd : d = doy - (153 * mp + 2) / 5 + 1)
    (hm : m = if mp < 10 then mp + 3 else mp - 9)
    (hy : y = if m ≤ 2 then yoe + era * 400 + 1 else yoe + era * 400) :
    1 ≤ m ∧ m ≤ 12 ∧ 1 ≤ d ∧ d ≤ daysInMonth y m ∧
      dayOfCivil y m d = era * 146097 + doe - 719468 := by
  have hb := yoe_bounds doe h0 h1
  rw [← hyoe] at hb
  obtain ⟨hy0, hy399, hg1, hg2⟩ := hb
  have hdoyb : 0 ≤ doy ∧ doy ≤ 365 := by clear hd hm hy hmp hyoe; omega
  have hmpb : 0 ≤ mp ∧ mp ≤ 11 := by clear hd hm hy hyoe; omega
  subst hy
  subst hm
  subst hd
  clear hyoe
  obtain ⟨hmp0, hmp1⟩ := hmpb
  obtain ⟨hb1, hb2, hb3, hb4, hb5, hb6, hb7, hb8, hb9, hb10, hb11, hb12,
    hb13, hb14, hb15, hb16⟩ := civil_bridges era yoe hy0 hy399
  interval_cases mp <;>
    refine ⟨?_, ?_, ?_, ?_, ?_⟩ <;>
    (try simp only [dayOfCivil, daysInMonth]) <;>
    (try norm_num) <;>
    (try split_ifs) <;>
    (first
      | omega
      | (obtain ⟨hld1, hld2⟩ := leap_delta yoe hy0 hy399
         by_cases hlp : ((yoe + 1) % 4 = 0 ∧ ¬ (yoe + 1) % 100 = 0) ∨
            (yoe + 1) % 400 = 0
         · have hldEq := hld1 hlp
           omega
         · have hldEq := hld2 hlp
           omega))

/-- Validity and invertibility of the civil conversion: the civil date of
any epoch day has a month in 1..12, a day within the month length, and
converting it back with dayOfCivil returns the same epoch day. -/
theorem civilOfDay_char (z : ℤ) :
    1 ≤ cmonth z ∧ cmonth z ≤ 12 ∧ 1 ≤ cday z ∧
      cday z ≤ daysInMonth (cyear z) (cmonth z) ∧
      dayOfCivil (cyear z) (cmonth z) (cday z) = z := by
  have h := civil_core (doe0 z) (era0 z) (yoe0 z) (doy0 z) (mp0 z) (cday z)
    (cmonth z) (cyear z)
    (by unfold doe0; omega) (by unfold doe0; omega) rfl rfl rfl rfl rfl rfl
  have hz : era0 z * 146097 + doe0 z - 719468 = z := by unfold era0 doe0; omega
  exact ⟨h.1, h.2.1, h.2.2.1, h.2.2.2.1, by rw [h.2.2.2.2, hz]⟩

/-- dayOfCivil is an affine function of the day argument. -/
theorem dayOfCivil_day (y m d : ℤ) : dayOfCivil y m d = dayOfCivil y m 1 + (d - 1) := by
  simp only [dayOfCivil]
  split_ifs <;> omega

/-- First day of the next month within a year: advancing the month argument
by one advances the epoch day by the length of the month. -/
theorem dayOfCivil_next (y m : ℤ) (h1 : 1 ≤ m) (h2 : m ≤ 11) :
    dayOfCivil y (m + 1) 1 = dayOfCivil y m 1 + daysInMonth y m := by
  interval_cases m <;>
    (try simp only [dayOfCivil, daysInMonth]) <;>
    (try norm_num) <;>
    (try split_ifs) <;>
    omega

/-- First day of January of the next year follows the first day of December
by exactly 31 days. -/
theorem dayOfCivil_dec (y : ℤ) :
    dayOfCivil (y + 1) 1 1 = dayOfCivil y 12 1 + 31 := by
  simp only [dayOfCivil]
  norm_num
  omega

/-- Month lengths are between 28 and 31 days. -/
theorem daysInMonth_bounds (y m : ℤ) :
    28 ≤ daysInMonth y m ∧ daysInMonth y m ≤ 31 := by
  simp only [daysInMonth]
  split_ifs <;> omega

/-- Advancing the linear month index advances the month start by the length
of the indexed month. -/
theorem monthStartI_step (μ : ℤ) :
    monthStartI (μ + 1) = monthStartI μ + daysInMonth (μ / 12) (μ % 12 + 1) := by
  obtain ⟨q, r, hqr, hr0, hr1⟩ : ∃ q r, μ = 12 * q + r ∧ 0 ≤ r ∧ r ≤ 11 :=
    ⟨μ / 12, μ % 12, by omega, by omega, by omega⟩
  subst hqr
  have e3 : (12 * q + r) / 12 = q := by omega
  have e4 : (12 * q + r) % 12 = r := by omega
  rcases (by omega : r ≤ 10 ∨ r = 11) with hc | hc
  · have e1 : (12 * q + r + 1) / 12 = q := by omega
    have e2 : (12 * q + r + 1) % 12 = r + 1 := by omega
    simp only [monthStartI]
    rw [e1, e2, e3, e4]
    exact dayOfCivil_next q (r + 1) (by omega) (by omega)
  · subst hc
    have e1 : (12 * q + 11 + 1) / 12 = q + 1 := by omega
    have e2 : (12 * q + 11 + 1) % 12 = 0 := by omega
    simp only [monthStartI]
    rw [e1, e2, e3, e4]
    have hdim : daysInMonth q (11 + 1) = 31 := by simp [daysInMonth]
    rw [hdim]
    norm_num
    exact dayOfCivil_dec q

/-- Month starts strictly increase along the linear month index. -/
theorem monthStartI_mono : StrictMono monthStartI := by
  apply strictMono_int_of_lt_succ
  intro μ
  have h := monthStartI_step μ
  have hd := daysInMonth_bounds (μ / 12) (μ % 12 + 1)
  omega

/-- Every epoch day lies in the half-open interval of its own civil month:
the month start is the first day of that month and the next month starts
strictly later. -/
theorem month_containment (z : ℤ) :
    monthStartI (monthIdxOf z) = dayOfCivil (cyear z) (cmonth z) 1 ∧
    monthStartI (monthIdxOf z) ≤ z ∧ z < monthStartI (monthIdxOf z + 1) := by
  obtain ⟨hm1, hm12, hd1, hdM, hrec⟩ := civilOfDay_char z
  have hstep := monthStartI_step (monthIdxOf z)
  have e1 : monthIdxOf z / 12 = cyear z := by simp only [monthIdxOf]; omega
  have e2 : monthIdxOf z % 12 = cmonth z - 1 := by simp only [monthIdxOf]; omega
  rw [e1, e2] at hstep
  have e3 : cmonth z - 1 + 1 = cmonth z := by ring
  rw [e3] at hstep
  have hsI : monthStartI (monthIdxOf z) = dayOfCivil (cyear z) (cmonth z) 1 := by
    simp only [monthStartI]
    rw [e1, e2, e3]
  have hzd := dayOfCivil_day (cyear z) (cmonth z) (cday z)
  exact ⟨hsI, by omega, by omega⟩

/-- The linear month index of an epoch day is the unique index whose month
interval contains it. -/
theorem month_unique (μ z : ℤ) (h1 : monthStartI μ ≤ z)
    (h2 : z < monthStartI (μ + 1)) : monthIdxOf z = μ := by
  obtain ⟨_, hc1, hc2⟩ := month_containment z
  by_contra hne
  rcases lt_or_gt_of_ne hne with hlt | hgt
  · have hle : monthStartI (monthIdxOf z + 1) ≤ monthStartI μ :=
      monthStartI_mono.le_iff_le.mpr (by omega)
    omega
  · have hle : monthStartI (μ + 1) ≤ monthStartI (monthIdxOf z) :=
      monthStartI_mono.le_iff_le.mpr (by omega)
    omega

/-- mkDateJs in terms of the linear month index: the built day sits at the
(possibly out-of-range) day offset from the start of the indexed month. -/
theorem mkDateJs_eq (y m d : ℤ) :
    mkDateJs y m d = monthStartI (12 * y + m) + (d - 1) := by
  simp only [mkDateJs, monthStartI]
  rw [show (12 * y + m) / 12 = y + m / 12 from by omega,
    show (12 * y + m) % 12 = m % 12 from by omega]

/-!
The date helpers of handle_retry.ts, embedded at day resolution.
-/

/-- getNextFriday from the source: the next Friday strictly after the given
date (if the date is a Friday, the following Friday). The JavaScript
expression (5 - dayOfWeek + 7) % 7 || 7 maps a zero offset to 7. -/
def getNextFriday (z : ℤ) : ℤ :=
  let dayOfWeek := weekday z
  let daysUntilFriday :=
    if (5 - dayOfWeek + 7) % 7 = 0 then 7 else (5 - dayOfWeek + 7) % 7
  z + daysUntilFriday

/-- getLastFridayOfMonthForDate from the source: last Friday of the given
(year, 0-based month), computed from the last day of that month. -/
def getLastFridayOfMonthForDate (year month : ℤ) : ℤ :=
  let date := mkDateJs year (month + 1) 0
  let dayOfWeek := weekday date
  let daysToSubtract := (dayOfWeek + 2) % 7
  date - daysToSubtract

/-- getLastFridayOfMonth from the source: last Friday of the current month,
or, when that has already passed, the last Friday of the month of the
nextMonth value obtained via JavaScript setMonth (whose day-of-month
overflow can carry into a later month). -/
def getLastFridayOfMonth (z : ℤ) : ℤ :=
  let lastFridayThisMonth := getLastFridayOfMonthForDate (yearOf z) (monthOf z)
  if lastFridayThisMonth ≤ z then
    let nextMonth := jsSetMonth z (monthOf z + 1)
    getLastFridayOfMonthForDate (yearOf nextMonth) (monthOf nextMonth)
  else lastFridayThisMonth

/-- Kind of Friday-family scheduling used by getScheduledDate. -/
inductive ScheduleKind
  | friday
  | friday_eom
deriving DecidableEq

/-- getScheduledDate from the source: the Friday-family candidate, or the
balance due date when that is in the future and earlier than the candidate. -/
def getScheduledDate (kind : ScheduleKind) (balanceDueDate : Option ℤ)
    (now : ℤ) : ℤ :=
  let fridayDate :=
    match kind with
    | .friday => getNextFriday now
    | .friday_eom => getLastFridayOfMonth now
  match balanceDueDate with
  | none => fridayDate
  | some b => if b ≤ now then fridayDate else if fridayDate < b then fridayDate else b

/-- getNextFriday always lands on a Friday, strictly after its argument and
at most seven days later. -/
theorem getNextFriday_spec (z : ℤ) :
    weekday (getNextFriday z) = 5 ∧ z < getNextFriday z ∧
      getNextFriday z ≤ z + 7 := by
  simp only [getNextFriday, weekday]
  split_ifs <;> constructor <;> omega

/-- Window for the last-Friday computation: the result lies in the last
seven days before the next month's start. -/
theorem lfm_window (Y M0 ν : ℤ) (hν : ν = 12 * Y + (M0 + 1)) :
    monthStartI ν - 7 ≤ getLastFridayOfMonthForDate Y M0 ∧
      getLastFridayOfMonthForDate Y M0 < monthStartI ν := by
  subst hν
  have hmk := mkDateJs_eq Y (M0 + 1) 0
  simp only [getLastFridayOfMonthForDate, weekday]
  omega

/-- getLastFridayOfMonth returns a date strictly after its argument, on
every input. -/
theorem getLastFridayOfMonth_gt (z : ℤ) : z < getLastFridayOfMonth z := by
  obtain ⟨hsI, hcl, hcu⟩ := month_containment z
  obtain ⟨hch1, hch2, hch3, hch4, hch5⟩ := civilOfDay_char z
  simp only [getLastFridayOfMonth, jsSetMonth, yearOf, monthOf, dateOf]
  split_ifs with hc
  · have hmk := mkDateJs_eq (cyear z) (cmonth z - 1 + 1) (cday z)
    have hidx : 12 * cyear z + (cmonth z - 1 + 1) = monthIdxOf z + 1 := by
      simp only [monthIdxOf]; ring
    rw [hidx] at hmk
    set nm := mkDateJs (cyear z) (cmonth z - 1 + 1) (cday z) with hnm
    obtain ⟨hw1, hw2⟩ := lfm_window (cyear nm) (cmonth nm - 1) (monthIdxOf nm + 1)
      (by simp only [monthIdxOf]; ring)
    obtain ⟨_, hmc2, hmc3⟩ := month_containment nm
    have hstep2 := monthStartI_step (monthIdxOf nm)
    have hdimb := daysInMonth_bounds (monthIdxOf nm / 12) (monthIdxOf nm % 12 + 1)
    have hle : monthIdxOf z + 1 ≤ monthIdxOf nm := by
      by_contra hx
      have hmono : monthStartI (monthIdxOf nm + 1) ≤ monthStartI (monthIdxOf z + 1) :=
        monthStartI_mono.le_iff_le.mpr (by omega)
      omega
    have hmono2 : monthStartI (monthIdxOf z + 1) ≤ monthStartI (monthIdxOf nm) :=
      monthStartI_mono.le_iff_le.mpr hle
    omega
  · omega

/-- getScheduledDate always returns a date strictly after the reference
date, whichever candidate wins. -/
theorem getScheduledDate_gt (kind : ScheduleKind) (balanceDueDate : Option ℤ)
    (now : ℤ) : now < getScheduledDate kind balanceDueDate now := by
  have hf := getNextFriday_spec now
  have he := getLastFridayOfMonth_gt now
  cases kind <;> cases balanceDueDate <;>
    simp only [getScheduledDate] <;>
    (try split_ifs) <;>
    omega

/-!
Domain model: the Prisma enums and records, restricted to the fields the
retry engine reads or writes. String metadata fields of Payment
(fail_reason, memo, the retry trace blob and its retry note) are elided:
the handlers only write constants derived from other modelled fields into
them and never read them back.
-/

/-- Payment lifecycle status (Prisma enum PaymentStatus, members used by
the handlers). -/
inductive PaymentStatus
  | SCHEDULED
  | PROCESSING
  | PAID
  | FAILED
deriving DecidableEq

/-- Payment routing track (Prisma enum PaymentTrack). -/
inductive PaymentTrack
  | ANY_CARD
  | BANK_CARD
  | BANK_EFT
deriving DecidableEq

/-- Payment method validity status (Prisma enum PaymentMethodStatus). -/
inductive PaymentMethodStatus
  | VALID
  | INVALID
deriving DecidableEq

/-- Payment record (model/Payment.ts), fields used by the retry engine. -/
structure Payment where
  id : ℕ
  status : PaymentStatus
  code : Option ℤ
  date : ℤ
  amount : ℤ
  account_id : ℕ
  payment_method_id : Option ℕ
  billing_cycle_id : Option ℕ
  track : Option PaymentTrack
  retry_prev_payment_id : Option ℕ
  retry_sequence_nb : ℤ
  retry_routing_ctx : List String
deriving DecidableEq

/-- Billing cycle record, fields read and written by the handlers. -/
structure BillingCycle where
  id : ℕ
  end_date : ℤ
  days_overdue : Option ℤ
deriving DecidableEq

/-- Customer account record, fields read and written by the handlers. -/
structure CustomerAccount where
  id : ℕ
  balance_due_date : Option ℤ
  last_failed_payment_amount : Option ℤ
  last_failed_payment_date : Option ℤ
deriving DecidableEq

/-- Payment method record, fields touched by the handlers. -/
structure PaymentMethod where
  id : ℕ
  status : PaymentMethodStatus
deriving DecidableEq

/-- Collaborator state threaded through the handlers: the persisted stores
they read and update, the list of retry payments created so far (standing
in for Payment.create), and the invocation channel of the alerting
collaborator named by the specification. No handler in the source ever
invokes the alerting collaborator, so no embedded function appends to the
alerts channel. -/
structure St where
  billing_cycles : ℕ → Option BillingCycle
  accounts : ℕ → Option CustomerAccount
  payment_methods : ℕ → Option PaymentMethod
  created : List Payment
  alerts : List ℤ

/-- Time bucket classification (handle_retry.ts TimeBucket). -/
inductive TimeBucket
  | b0_30
  | b31_60
  | b61_180
  | b181plus
deriving DecidableEq

/-- Retry action (handle_retry.ts RetryAction). -/
inductive RetryAction
  | instant
  | scheduled_friday
  | scheduled_friday_eom
  | backoff
  | not_possible
deriving DecidableEq

/-- EFT codes that are Not Possible and are never retried (source constant
NOT_POSSIBLE_CODES). -/
def NOT_POSSIBLE_CODES : List ℤ := [442, 443, 444, 445, 613, 615, 616, 640, 710]

/-- One row of the retry strategy table: the code sets for each
reschedule action in a given time bucket. -/
structure StrategyRow where
  instant : List ℤ
  scheduled_friday : List ℤ
  scheduled_friday_eom : List ℤ
  backoff : List ℤ

/-- The retry strategy table of the source (retryStrategy constant),
transcribed row for row. -/
def retryStrategy : TimeBucket → StrategyRow
  | .b0_30 =>
    ⟨[904], [441, 701, 706], [601], [903, 440, 603, 604, 605, 606, 607, 777]⟩
  | .b31_60 =>
    ⟨[904], [441, 701, 706], [601], [903, 440, 603, 604, 605, 606, 607, 777]⟩
  | .b61_180 =>
    ⟨[904], [], [441, 701, 706], [903, 440, 601, 603, 604, 605, 606, 607, 777]⟩
  | .b181plus =>
    ⟨[], [], [], [904, 903, 440, 441, 601, 701, 706, 603, 604, 605, 606, 607, 777]⟩

/-- getTimeBucket from the source: buckets days overdue with inclusive
upper bounds 30, 60, 180. -/
def getTimeBucket (days_overdue : ℤ) : TimeBucket :=
  if days_overdue ≤ 30 then .b0_30
  else if days_overdue ≤ 60 then .b31_60
  else if days_overdue ≤ 180 then .b61_180
  else .b181plus

/-- getRetryAction from the source: Not Possible codes first, then the
strategy row of the bucket in action order, null for unknown codes. -/
def getRetryAction (code : ℤ) (timeBucket : TimeBucket) : Option RetryAction :=
  if code ∈ NOT_POSSIBLE_CODES then some .not_possible
  else
    let strategy := retryStrategy timeBucket
    if code ∈ strategy.instant then some .instant
    else if code ∈ strategy.scheduled_friday then some .scheduled_friday
    else if code ∈ strategy.scheduled_friday_eom then some .scheduled_friday_eom
    else if code ∈ strategy.backoff then some .backoff
    else none

/-- Typed failure outcomes of handle_retry: one constructor per distinct
error branch (each with its own message) in the source. -/
inductive RetryError
  | noFailureCode
  | noBillingCycle
  | billingCycleFetchFailed
  | unknownFailureCode (code : ℤ) (bucket : TimeBucket)
  | retryNotPossible (code : ℤ)
deriving DecidableEq

/-- Codes subject to the retry-count-12 forced backoff (source constant
CODES_WITH_RETRY_LIMIT_12). -/
def CODES_WITH_RETRY_LIMIT_12 : List ℤ := [441, 701, 706]

/-- Codes subject to the Stripe exclusion override (source constant
CODES_WITH_STRIPE_EXCLUSION). -/
def CODES_WITH_STRIPE_EXCLUSION : List ℤ := [904, 441, 601, 701, 706]

/-- The effective action of handle_retry: the base table action, with the
source's special condition (bucket 61-180D, code in the limit-12 set,
retry count above 12) reassigning it to backoff (source lines 463-474). -/
def effectiveAction (code : ℤ) (timeBucket : TimeBucket) (retry_cnt : ℤ) :
    Option RetryAction :=
  if timeBucket = .b61_180 ∧ code ∈ CODES_WITH_RETRY_LIMIT_12 ∧ retry_cnt > 12
  then some RetryAction.backoff
  else getRetryAction code timeBucket

/-- Balance due date read from the customer account store; a missing
account reads as null, as in the source's silent fetch fallback. -/
def balanceDueDateOf (st : St) (account_id : ℕ) : Option ℤ :=
  (st.accounts account_id).bind (fun a => a.balance_due_date)

/-- Track of the retry payment (source line 541): card track for external
processor failures, bank-then-card track otherwise. -/
def retryTrackOf (code : ℤ) : PaymentTrack :=
  if code = 904 then PaymentTrack.ANY_CARD else PaymentTrack.BANK_CARD

/-- Routing context of the retry payment (source lines 542-550): the
predecessor's context, plus the Stripe exclusion when the bucket is
31-60D, the code is in the exclusion set and the retry count exceeds 8. -/
def retryRoutingCtxOf (ctx : List String) (code : ℤ) (timeBucket : TimeBucket)
    (retry_cnt : ℤ) : List String :=
  if timeBucket = .b31_60 ∧ code ∈ CODES_WITH_STRIPE_EXCLUSION ∧ retry_cnt > 8
  then ctx ++ ["exclude_stripe"]
  else ctx

/-- The retry payment constructed by Payment.create (source lines 552-591):
scheduled successor with lineage to the predecessor, incremented retry
sequence and the computed retry date. The fresh id is the number of
records created so far, standing in for the database-generated id. The
source reads the balance due date only for the two scheduled actions; for
an instant retry the date is the current day and the account is never
consulted. -/
def mkRetryPayment (st : St) (p : Payment) (code : ℤ) (bcid : ℕ)
    (timeBucket : TimeBucket) (act : RetryAction) (now : ℤ) : Payment :=
  { id := st.created.length
    status := PaymentStatus.SCHEDULED
    code := none
    date :=
      match act with
      | .instant => now
      | .scheduled_friday =>
        getScheduledDate .friday (balanceDueDateOf st p.account_id) now
      | _ =>
        getScheduledDate .friday_eom (balanceDueDateOf st p.account_id) now
    amount := p.amount
    account_id := p.account_id
    payment_method_id := p.payment_method_id
    billing_cycle_id := some bcid
    track := some (retryTrackOf code)
    retry_prev_payment_id := some p.id
    retry_sequence_nb := p.retry_sequence_nb + 1
    retry_routing_ctx :=
      retryRoutingCtxOf p.retry_routing_ctx code timeBucket p.retry_sequence_nb }

/-- handle_retry from the source, with collaborator reads and the one
record write made explicit: takes the collaborator state and the current
day (the value of new Date()), and returns the Result together with the
state, unchanged except that a created retry payment is appended to the
created list. -/
def handle_retry (st : St) (payment : Payment) (now : ℤ) :
    Except RetryError Payment × St :=
  match payment.code with
  | none => (.error .noFailureCode, st)
  | some code =>
    match payment.billing_cycle_id with
    | none => (.error .noBillingCycle, st)
    | some bcid =>
      match st.billing_cycles bcid with
      | none => (.error .billingCycleFetchFailed, st)
      | some billingCycle =>
        let timeBucket := getTimeBucket (billingCycle.days_overdue.getD 0)
        match effectiveAction code timeBucket payment.retry_sequence_nb with
        | none => (.error (.unknownFailureCode code timeBucket), st)
        | some RetryAction.not_possible => (.error (.retryNotPossible code), st)
        | some RetryAction.backoff => (.ok payment, st)
        | some act =>
          let retryPayment := mkRetryPayment st payment code bcid timeBucket act now
          (.ok retryPayment, { st with created := st.created ++ [retryPayment] })

/-- Days-overdue computation of handle_failed_pull_funds (source lines
130-135) at day resolution: the difference between the reference day and
the billing cycle end, clamped to zero by Math.max. -/
def days_overdue_of (ref_date end_date : ℤ) : ℤ := max 0 (ref_date - end_date)

/-- Payment method invalidation applied on hard declines. -/
def invalidOf (pm : PaymentMethod) : PaymentMethod :=
  { pm with status := PaymentMethodStatus.INVALID }

/-- handle_failed_pull_funds from the source. The hard-decline
classification is_hard_decline_code lives in PaymentStatusCode.ts, which
is not among the provided sources, so it is passed in as an abstract
predicate. The persistence collaborators are modelled as always
succeeding; the account-metrics timestamp new Date() is the now
parameter. An already FAILED payment short-circuits: the payment is
returned unchanged and no write of any kind happens. -/
def handle_failed_pull_funds (hard_decline : ℤ → Bool) (st : St)
    (payment : Payment) (code : ℤ) (ref_date now : ℤ) : Payment × St :=
  if payment.status = PaymentStatus.FAILED then (payment, st)
  else
    let payment1 := { payment with status := PaymentStatus.FAILED, code := some code }
    let st1 :=
      match payment1.payment_method_id with
      | some pmid =>
        if hard_decline code then
          { st with payment_methods := fun i =>
              if i = pmid then Option.map invalidOf (st.payment_methods i)
              else st.payment_methods i }
        else st
      | none => st
    let st2 :=
      match st1.accounts payment1.account_id with
      | some account =>
        { st1 with accounts := fun i =>
            if i = account.id then
              (some { account with
                last_failed_payment_amount := some payment1.amount,
                last_failed_payment_date := some now })
            else st1.accounts i }
      | none => st1
    let st3 :=
      match payment1.billing_cycle_id with
      | some bcid =>
        match st2.billing_cycles bcid with
        | some billing_cycle =>
          { st2 with billing_cycles := fun i =>
              if i = bcid then
                (some { billing_cycle with
                  days_overdue := some (days_overdue_of ref_date billing_cycle.end_date) })
              else st2.billing_cycles i }
        | none => st2
      | none => st2
    (payment1, st3)

/-- Failure branch of pull_funds (model/Payment.ts lines 564-573): after a
failed pull the payment goes through handle_failed_pull_funds and then,
unconditionally, through handle_retry; a failed retry Result falls back
to the payment returned by the failure handler. -/
def pull_funds_failure_branch (hard_decline : ℤ → Bool) (st : St)
    (payment : Payment) (code : ℤ) (ref_date now : ℤ) : Payment × St :=
  let r1 := handle_failed_pull_funds hard_decline st payment code ref_date now
  let r2 := handle_retry r1.2 r1.1 now
  match r2.1 with
  | .ok p => (p, r2.2)
  | .error _ => (r1.1, r2.2)

/-!
Specification-side rule table (section 4.2 of the spec), written from the
spec's words for comparison against the source's retryStrategy and
getRetryAction. The spec distinguishes an alert-and-backoff action from a
plain backoff.
-/

/-- Action vocabulary of the specification's rule table. -/
inductive SpecAction
  | instant
  | scheduleFriday
  | scheduleFridayEOM
  | alertAndBackoff
  | backoff
deriving DecidableEq

/-- Payment-method directive vocabulary of the specification. -/
inductive SpecDirective
  | useCard
  | tryBankThenCard
  | noChange
deriving DecidableEq

/-- One cell of the specification's rule table. -/
inductive SpecCell
  | notPossible
  | act (a : SpecAction) (d : SpecDirective)
deriving DecidableEq

/-- The rule table of spec section 4.2, row for row; none for codes
outside the declared universe. -/
def specRuleTable (c : ℤ) (b : TimeBucket) : Option SpecCell :=
  if c = 904 then
    some (match b with
      | .b0_30 | .b31_60 | .b61_180 => .act .instant .useCard
      | .b181plus => .act .backoff .noChange)
  else if c ∈ ([903, 440, 603, 604, 605, 606, 607, 777] : List ℤ) then
    some (match b with
      | .b0_30 | .b31_60 => .act .alertAndBackoff .noChange
      | .b61_180 | .b181plus => .act .backoff .noChange)
  else if c ∈ ([441, 701, 706] : List ℤ) then
    some (match b with
      | .b0_30 | .b31_60 => .act .scheduleFriday .tryBankThenCard
      | .b61_180 => .act .scheduleFridayEOM .tryBankThenCard
      | .b181plus => .act .backoff .noChange)
  else if c = 601 then
    some (match b with
      | .b0_30 | .b31_60 => .act .scheduleFridayEOM .tryBankThenCard
      | .b61_180 | .b181plus => .act .backoff .noChange)
  else if c ∈ ([442, 443, 444, 445, 613, 615, 616, 640, 710] : List ℤ) then
    some .notPossible
  else none

/-- Track recorded on the successor for each creating directive of the
specification (none for the terminal no-change directive). -/
def trackOfDirective : SpecDirective → Option PaymentTrack
  | .useCard => some PaymentTrack.ANY_CARD
  | .tryBankThenCard => some PaymentTrack.BANK_CARD
  | .noChange => none

/-- End-of-month Friday selection as the specification words it (section
4.4): the last Friday of the month of the given date when strictly after
it, otherwise the last Friday of the following calendar month (with
proper year rollover). Modelled from the spec for comparison with the
source's getLastFridayOfMonth. -/
def specEndOfMonthFriday (z : ℤ) : ℤ :=
  let lastFridayThisMonth := getLastFridayOfMonthForDate (yearOf z) (monthOf z)
  if lastFridayThisMonth ≤ z then
    getLastFridayOfMonthForDate (yearOf z + (monthOf z + 1) / 12) ((monthOf z + 1) % 12)
  else lastFridayThisMonth

/-!
Dispatch lemmas for symbolic reasoning about handle_retry.
-/

/-- Evaluation of handle_retry once the payment's code, billing cycle and
billing-cycle record are known: the outcome is determined by the
effective action. -/
theorem handle_retry_eq (st : St) (p : Payment) (now : ℤ) (c : ℤ) (bcid : ℕ)
    (bc : BillingCycle) (hc : p.code = some c) (hb : p.billing_cycle_id = some bcid)
    (hst : st.billing_cycles bcid = some bc) :
    handle_retry st p now =
      match effectiveAction c (getTimeBucket (bc.days_overdue.getD 0))
          p.retry_sequence_nb with
      | none =>
        (.error (.unknownFailureCode c (getTimeBucket (bc.days_overdue.getD 0))), st)
      | some RetryAction.not_possible => (.error (.retryNotPossible c), st)
      | some RetryAction.backoff => (.ok p, st)
      | some act =>
        (.ok (mkRetryPayment st p c bcid (getTimeBucket (bc.days_overdue.getD 0)) act now),
          { st with created := st.created ++
              [mkRetryPayment st p c bcid (getTimeBucket (bc.days_overdue.getD 0)) act now] }) := by
  simp only [handle_retry, hc, hb, hst]

/-- The retry-count override leaves the base action alone whenever the
retry count is at most 12. -/
theorem effectiveAction_of_le (c : ℤ) (b : TimeBucket) (cnt : ℤ)
    (h : cnt ≤ 12) : effectiveAction c b cnt = getRetryAction c b := by
  simp only [effectiveAction]
  rw [if_neg]
  rintro ⟨h1, h2, h3⟩
  omega

/-- The retry-count override leaves the base action alone outside the
61-180D bucket. -/
theorem effectiveAction_of_bucket (c : ℤ) (b : TimeBucket) (cnt : ℤ)
    (h : b ≠ TimeBucket.b61_180) : effectiveAction c b cnt = getRetryAction c b := by
  simp only [effectiveAction]
  rw [if_neg]
  rintro ⟨h1, h2, h3⟩
  exact h h1

/-- Not Possible codes resolve to the not-possible action in every bucket
and for every retry count. -/
theorem effectiveAction_not_possible (c : ℤ) (b : TimeBucket) (cnt : ℤ)
    (hmem : c ∈ NOT_POSSIBLE_CODES) :
    effectiveAction c b cnt = some RetryAction.not_possible := by
  have hnl : c ∉ CODES_WITH_RETRY_LIMIT_12 := by fin_cases hmem <;> decide
  simp only [effectiveAction, getRetryAction, if_pos hmem]
  rw [if_neg]
  rintro ⟨h1, h2, h3⟩
  exact hnl h2

/-- Outcome a spec cell prescribes for the resolution, with the one
amendment the source forces: cells tabulated AlertAndBackoff behave
exactly like plain Backoff (the original payment is returned unchanged
and no alert is sent), because the source has no alert path. -/
def amendedCellOutcome (st : St) (p : Payment) (now : ℤ) (c : ℤ) (bcid : ℕ)
    (b : TimeBucket) : SpecCell → Prop
  | .notPossible =>
    handle_retry st p now = (.error (.retryNotPossible c), st)
  | .act .alertAndBackoff _ => handle_retry st p now = (.ok p, st)
  | .act .backoff _ => handle_retry st p now = (.ok p, st)
  | .act .instant d =>
    handle_retry st p now =
      (.ok (mkRetryPayment st p c bcid b .instant now),
        { st with created := st.created ++ [mkRetryPayment st p c bcid b .instant now] }) ∧
    (mkRetryPayment st p c bcid b .instant now).track = trackOfDirective d ∧
    (mkRetryPayment st p c bcid b .instant now).date = now
  | .act .scheduleFriday d =>
    handle_retry st p now =
      (.ok (mkRetryPayment st p c bcid b .scheduled_friday now),
        { st with created :=
            st.created ++ [mkRetryPayment st p c bcid b .scheduled_friday now] }) ∧
    (mkRetryPayment st p c bcid b .scheduled_friday now).track = trackOfDirective d ∧
    (mkRetryPayment st p c bcid b .scheduled_friday now).date =
      getScheduledDate .friday (balanceDueDateOf st p.account_id) now
  | .act .scheduleFridayEOM d =>
    handle_retry st p now =
      (.ok (mkRetryPayment st p c bcid b .scheduled_friday_eom now),
        { st with created :=
            st.created ++ [mkRetryPayment st p c bcid b .scheduled_friday_eom now] }) ∧
    (mkRetryPayment st p c bcid b .scheduled_friday_eom now).track = trackOfDirective d ∧
    (mkRetryPayment st p c bcid b .scheduled_friday_eom now).date =
      getScheduledDate .friday_eom (balanceDueDateOf st p.account_id) now

set_option maxHeartbeats 1000000 in
/-- C1 (amended): for every failure code and bucket in the section 4.2
table, resolving a failed payment whose code and days-overdue fall in
that cell yields the tabulated action and payment-method directive,
except that cells tabulated AlertAndBackoff resolve as plain Backoff
with no alert; no retry-count override triggers below retry count nine. -/
theorem rule_table_resolution (st : St) (p : Payment) (now : ℤ) (c : ℤ)
    (bcid : ℕ) (bc : BillingCycle) (cell : SpecCell)
    (hc : p.code = some c) (hb : p.billing_cycle_id = some bcid)
    (hst : st.billing_cycles bcid = some bc)
    (hcell : specRuleTable c (getTimeBucket (bc.days_overdue.getD 0)) = some cell)
    (hcnt : p.retry_sequence_nb ≤ 8) :
    amendedCellOutcome st p now c bcid (getTimeBucket (bc.days_overdue.getD 0)) cell := by
  have hkey := handle_retry_eq st p now c bcid bc hc hb hst
  revert hcell hkey
  generalize getTimeBucket (bc.days_overdue.getD 0) = b
  intro hcell hkey
  rw [effectiveAction_of_le c b p.retry_sequence_nb (by omega)] at hkey
  simp only [specRuleTable] at hcell
  split_ifs at hcell with h1 h2 h3 h4 h5
  · subst h1
    cases b <;> (injection hcell with hcv) <;> subst hcv <;>
      simp only [amendedCellOutcome] <;>
      (first | exact hkey | exact ⟨hkey, rfl, rfl⟩)
  · fin_cases h2 <;> cases b <;> (injection hcell with hcv) <;> subst hcv <;>
      simp only [amendedCellOutcome] <;>
      (first | exact hkey | exact ⟨hkey, rfl, rfl⟩)
  · fin_cases h3 <;> cases b <;> (injection hcell with hcv) <;> subst hcv <;>
      simp only [amendedCellOutcome] <;>
      (first | exact hkey | exact ⟨hkey, rfl, rfl⟩)
  · subst h4
    cases b <;> (injection hcell with hcv) <;> subst hcv <;>
      simp only [amendedCellOutcome] <;>
      (first | exact hkey | exact ⟨hkey, rfl, rfl⟩)
  · fin_cases h5 <;> cases b <;> (injection hcell with hcv) <;> subst hcv <;>
      simp only [amendedCellOutcome] <;>
      (first | exact hkey | exact ⟨hkey, rfl, rfl⟩)

/-- Billing cycle of the concrete examples: cycle 0, zero days overdue. -/
def exBC : BillingCycle := { id := 0, end_date := 0, days_overdue := some 0 }

/-- Collaborator state of the concrete examples: one billing cycle, no
accounts, no payment methods, nothing created, no alerts sent. -/
def exSt : St :=
  { billing_cycles := fun i => if i = 0 then some exBC else none
    accounts := fun _ => none
    payment_methods := fun _ => none
    created := []
    alerts := [] }

/-- Failed payment of the concrete examples, parameterised by failure
code: already FAILED, on billing cycle 0, with retry count zero. -/
def exPayment (c : ℤ) : Payment :=
  { id := 1
    status := PaymentStatus.FAILED
    code := some c
    date := 0
    amount := 100
    account_id := 0
    payment_method_id := none
    billing_cycle_id := some 0
    track := none
    retry_prev_payment_id := none
    retry_sequence_nb := 0
    retry_routing_ctx := [] }

/-- C1 counterexample: at failure code 903 in the 0-30D bucket the table
prescribes AlertAndBackoff, but the resolution returns the original
payment with the alerting collaborator never invoked (the alerts channel
stays empty), so the cell does not yield the tabulated alert-and-backoff
action as stated. -/
theorem rule_table_alert_cell_cex :
    specRuleTable 903 TimeBucket.b0_30 =
      some (SpecCell.act SpecAction.alertAndBackoff SpecDirective.noChange) ∧
    handle_retry exSt (exPayment 903) 0 = (.ok (exPayment 903), exSt) ∧
    (handle_retry exSt (exPayment 903) 0).2.alerts = [] :=
  ⟨rfl, rfl, rfl⟩

/-- C1 witness: the amended rule-table theorem applied to code 904 with
zero days overdue, an instant-retry cell. -/
theorem rule_table_resolution_witness :
    (exPayment 904).code = some 904 ∧
    (exPayment 904).billing_cycle_id = some 0 ∧
    exSt.billing_cycles 0 = some exBC ∧
    specRuleTable 904 (getTimeBucket (exBC.days_overdue.getD 0)) =
      some (SpecCell.act SpecAction.instant SpecDirective.useCard) ∧
    (exPayment 904).retry_sequence_nb ≤ 8 ∧
    amendedCellOutcome exSt (exPayment 904) 0 904 0
      (getTimeBucket (exBC.days_overdue.getD 0))
      (SpecCell.act SpecAction.instant SpecDirective.useCard) :=
  ⟨rfl, rfl, rfl, rfl, by decide,
    rule_table_resolution exSt (exPayment 904) 0 904 0 exBC
      (SpecCell.act SpecAction.instant SpecDirective.useCard)
      rfl rfl rfl rfl (by decide)⟩

/-- C3: codes tabulated AlertAndBackoff in the 0-30D and 31-60D buckets
resolve by returning the original failed payment unchanged with nothing
created and the whole collaborator state, including the alerting channel,
untouched. The source has no send_alert call at all, so the specified
alert side effect never happens; the plain-Backoff half of the claim
holds for the same reason. -/
theorem alert_cells_send_no_alert (st : St) (p : Payment) (now : ℤ) (c : ℤ)
    (bcid : ℕ) (bc : BillingCycle)
    (hmem : c ∈ ([903, 440, 603, 604, 605, 606, 607, 777] : List ℤ))
    (hc : p.code = some c) (hb : p.billing_cycle_id = some bcid)
    (hst : st.billing_cycles bcid = some bc)
    (hbk : getTimeBucket (bc.days_overdue.getD 0) = TimeBucket.b0_30 ∨
      getTimeBucket (bc.days_overdue.getD 0) = TimeBucket.b31_60) :
    handle_retry st p now = (.ok p, st) ∧
      (handle_retry st p now).2.alerts = st.alerts := by
  have hkey := handle_retry_eq st p now c bcid bc hc hb hst
  rcases hbk with hbk | hbk <;> rw [hbk] at hkey <;>
    rw [effectiveAction_of_bucket c _ _ (by decide)] at hkey <;>
    fin_cases hmem <;> exact ⟨hkey, by rw [hkey]; rfl⟩

/-- C3 witness: code 903 with zero days overdue resolves to the original
payment and sends no alert. -/
theorem alert_cells_send_no_alert_witness :
    ((903 : ℤ) ∈ ([903, 440, 603, 604, 605, 606, 607, 777] : List ℤ)) ∧
    (exPayment 903).code = some 903 ∧
    (exPayment 903).billing_cycle_id = some 0 ∧
    exSt.billing_cycles 0 = some exBC ∧
    (getTimeBucket (exBC.days_overdue.getD 0) = TimeBucket.b0_30 ∨
      getTimeBucket (exBC.days_overdue.getD 0) = TimeBucket.b31_60) ∧
    (handle_retry exSt (exPayment 903) 0 = (.ok (exPayment 903), exSt) ∧
      (handle_retry exSt (exPayment 903) 0).2.alerts = exSt.alerts) :=
  ⟨by decide, rfl, rfl, rfl, Or.inl rfl,
    alert_cells_send_no_alert exSt (exPayment 903) 0 903 0 exBC
      (by decide) rfl rfl rfl (Or.inl rfl)⟩

/-- C2: re-invoking the pull-funds failure path on a payment already in
the terminal FAILED state is not a no-op. The failure handler
short-circuits, but handle_retry runs again unconditionally (there is no
idempotency guard in it), creating a second successor record; the second
invocation also returns a different payment than the first. -/
theorem reprocess_failed_creates_duplicate :
    (exPayment 904).status = PaymentStatus.FAILED ∧
    (pull_funds_failure_branch (fun _ => false) exSt
        (exPayment 904) 904 0 0).2.created.length = 1 ∧
    (pull_funds_failure_branch (fun _ => false)
        (pull_funds_failure_branch (fun _ => false) exSt (exPayment 904) 904 0 0).2
        (exPayment 904) 904 0 0).2.created.length = 2 ∧
    (pull_funds_failure_branch (fun _ => false)
        (pull_funds_failure_branch (fun _ => false) exSt (exPayment 904) 904 0 0).2
        (exPayment 904) 904 0 0).1 ≠
      (pull_funds_failure_branch (fun _ => false) exSt (exPayment 904) 904 0 0).1 := by
  refine ⟨rfl, rfl, rfl, ?_⟩
  decide

/-- C4: every non-terminal resolution (instant or either scheduled
action) creates exactly one successor record that points back to the
predecessor, carries retry sequence one above the predecessor's, is
created SCHEDULED, and is dated no earlier than the reference day. -/
theorem successor_record_invariants (st : St) (p : Payment) (now : ℤ) (c : ℤ)
    (bcid : ℕ) (bc : BillingCycle) (act : RetryAction)
    (hc : p.code = some c) (hb : p.billing_cycle_id = some bcid)
    (hst : st.billing_cycles bcid = some bc)
    (heff : effectiveAction c (getTimeBucket (bc.days_overdue.getD 0))
      p.retry_sequence_nb = some act)
    (hact : act = RetryAction.instant ∨ act = RetryAction.scheduled_friday ∨
      act = RetryAction.scheduled_friday_eom) :
    ∃ q, handle_retry st p now = (.ok q, { st with created := st.created ++ [q] }) ∧
      q.retry_prev_payment_id = some p.id ∧
      q.retry_sequence_nb = p.retry_sequence_nb + 1 ∧
      q.status = PaymentStatus.SCHEDULED ∧
      now ≤ q.date := by
  have hkey := handle_retry_eq st p now c bcid bc hc hb hst
  rw [heff] at hkey
  rcases hact with rfl | rfl | rfl
  · exact ⟨_, hkey, rfl, rfl, rfl, le_refl now⟩
  · exact ⟨_, hkey, rfl, rfl, rfl,
      le_of_lt (getScheduledDate_gt ScheduleKind.friday
        (balanceDueDateOf st p.account_id) now)⟩
  · exact ⟨_, hkey, rfl, rfl, rfl,
      le_of_lt (getScheduledDate_gt ScheduleKind.friday_eom
        (balanceDueDateOf st p.account_id) now)⟩

/-- C4 witness: instant retry of code 904 creates a SCHEDULED successor
with correct lineage, sequence and date. -/
theorem successor_record_invariants_witness :
    (exPayment 904).code = some 904 ∧
    (exPayment 904).billing_cycle_id = some 0 ∧
    exSt.billing_cycles 0 = some exBC ∧
    effectiveAction 904 (getTimeBucket (exBC.days_overdue.getD 0))
      (exPayment 904).retry_sequence_nb = some RetryAction.instant ∧
    (∃ q, handle_retry exSt (exPayment 904) 0 =
        (.ok q, { exSt with created := exSt.created ++ [q] }) ∧
      q.retry_prev_payment_id = some (exPayment 904).id ∧
      q.retry_sequence_nb = (exPayment 904).retry_sequence_nb + 1 ∧
      q.status = PaymentStatus.SCHEDULED ∧
      (0 : ℤ) ≤ q.date) :=
  ⟨rfl, rfl, rfl, rfl,
    successor_record_invariants exSt (exPayment 904) 0 904 0 exBC
      RetryAction.instant rfl rfl rfl rfl (Or.inl rfl)⟩

/-- C5: in the 31-60D bucket, for the five exclusion codes, a prior retry
count above eight adds the Stripe exclusion to the successor's routing
context while the base table action is untouched; at a count of exactly
eight the routing context is the predecessor's unchanged. -/
theorem stripe_exclusion_override (st : St) (p : Payment) (now : ℤ) (c : ℤ)
    (bcid : ℕ) (bc : BillingCycle)
    (hmem : c ∈ CODES_WITH_STRIPE_EXCLUSION)
    (hc : p.code = some c) (hb : p.billing_cycle_id = some bcid)
    (hst : st.billing_cycles bcid = some bc)
    (hbk : getTimeBucket (bc.days_overdue.getD 0) = TimeBucket.b31_60) :
    (p.retry_sequence_nb > 8 →
      ∃ q, handle_retry st p now = (.ok q, { st with created := st.created ++ [q] }) ∧
        "exclude_stripe" ∈ q.retry_routing_ctx ∧
        effectiveAction c TimeBucket.b31_60 p.retry_sequence_nb =
          getRetryAction c TimeBucket.b31_60) ∧
    (p.retry_sequence_nb = 8 →
      ∃ q, handle_retry st p now = (.ok q, { st with created := st.created ++ [q] }) ∧
        q.retry_routing_ctx = p.retry_routing_ctx) := by
  have hkey := handle_retry_eq st p now c bcid bc hc hb hst
  rw [hbk] at hkey
  rw [effectiveAction_of_bucket c _ _ (by decide)] at hkey
  constructor
  · intro hgt
    fin_cases hmem <;>
      refine ⟨_, hkey, ?_, effectiveAction_of_bucket _ _ _ (by decide)⟩ <;>
      · simp only [mkRetryPayment, retryRoutingCtxOf]
        rw [if_pos ⟨by simp, by decide, hgt⟩]
        simp
  · intro heq
    fin_cases hmem <;>
      refine ⟨_, hkey, ?_⟩ <;>
      · simp only [mkRetryPayment, retryRoutingCtxOf]
        rw [if_neg (by rintro ⟨h1x, h2x, h3x⟩; omega)]

/-- Billing cycle sitting in the 31-60D bucket for the override examples. -/
def exBC45 : BillingCycle := { id := 0, end_date := 0, days_overdue := some 45 }

/-- Billing cycle sitting in the 61-180D bucket for the override examples. -/
def exBC100 : BillingCycle := { id := 0, end_date := 0, days_overdue := some 100 }

/-- Example state whose billing cycle 0 is 45 days overdue. -/
def exSt45 : St :=
  { exSt with billing_cycles := fun i => if i = 0 then some exBC45 else none }

/-- Example state whose billing cycle 0 is 100 days overdue. -/
def exSt100 : St :=
  { exSt with billing_cycles := fun i => if i = 0 then some exBC100 else none }

/-- Example failed payment with a chosen code and retry count. -/
def exPaymentCnt (c n : ℤ) : Payment := { exPayment c with retry_sequence_nb := n }

/-- C5 witness: code 701 at 45 days overdue with retry count nine. -/
theorem stripe_exclusion_override_witness :
    ((701 : ℤ) ∈ CODES_WITH_STRIPE_EXCLUSION) ∧
    (exPaymentCnt 701 9).code = some 701 ∧
    (exPaymentCnt 701 9).billing_cycle_id = some 0 ∧
    exSt45.billing_cycles 0 = some exBC45 ∧
    getTimeBucket (exBC45.days_overdue.getD 0) = TimeBucket.b31_60 ∧
    (((exPaymentCnt 701 9).retry_sequence_nb > 8 →
      ∃ q, handle_retry exSt45 (exPaymentCnt 701 9) 0 =
          (.ok q, { exSt45 with created := exSt45.created ++ [q] }) ∧
        "exclude_stripe" ∈ q.retry_routing_ctx ∧
        effectiveAction 701 TimeBucket.b31_60 (exPaymentCnt 701 9).retry_sequence_nb =
          getRetryAction 701 TimeBucket.b31_60) ∧
    ((exPaymentCnt 701 9).retry_sequence_nb = 8 →
      ∃ q, handle_retry exSt45 (exPaymentCnt 701 9) 0 =
          (.ok q, { exSt45 with created := exSt45.created ++ [q] }) ∧
        q.retry_routing_ctx = (exPaymentCnt 701 9).retry_routing_ctx)) :=
  ⟨by decide, rfl, rfl, rfl, rfl,
    stripe_exclusion_override exSt45 (exPaymentCnt 701 9) 0 701 0 exBC45
      (by decide) rfl rfl rfl rfl⟩

/-- C6: in the 61-180D bucket, for the three exhaustion codes, a prior
retry count above twelve forces a plain backoff: the original payment is
returned and the state is untouched, so there is no date, no exclusion
and no successor; at a count of exactly twelve the base Friday-EOM
schedule stands, on the bank-then-card track. -/
theorem forced_backoff_exhaustion (st : St) (p : Payment) (now : ℤ) (c : ℤ)
    (bcid : ℕ) (bc : BillingCycle)
    (hmem : c ∈ CODES_WITH_RETRY_LIMIT_12)
    (hc : p.code = some c) (hb : p.billing_cycle_id = some bcid)
    (hst : st.billing_cycles bcid = some bc)
    (hbk : getTimeBucket (bc.days_overdue.getD 0) = TimeBucket.b61_180) :
    (p.retry_sequence_nb > 12 → handle_retry st p now = (.ok p, st)) ∧
    (p.retry_sequence_nb = 12 →
      ∃ q, handle_retry st p now = (.ok q, { st with created := st.created ++ [q] }) ∧
        q.date = getScheduledDate .friday_eom (balanceDueDateOf st p.account_id) now ∧
        q.track = some PaymentTrack.BANK_CARD) := by
  have hkey := handle_retry_eq st p now c bcid bc hc hb hst
  rw [hbk] at hkey
  constructor
  · intro hgt
    rw [show effectiveAction c TimeBucket.b61_180 p.retry_sequence_nb =
        some RetryAction.backoff from by
      simp only [effectiveAction]; rw [if_pos ⟨by simp, hmem, hgt⟩]] at hkey
    exact hkey
  · intro heq
    rw [effectiveAction_of_le c _ _ (by omega)] at hkey
    fin_cases hmem <;> exact ⟨_, hkey, rfl, rfl⟩

/-- C6 witness: code 441 at 100 days overdue with retry count thirteen. -/
theorem forced_backoff_exhaustion_witness :
    ((441 : ℤ) ∈ CODES_WITH_RETRY_LIMIT_12) ∧
    (exPaymentCnt 441 13).code = some 441 ∧
    (exPaymentCnt 441 13).billing_cycle_id = some 0 ∧
    exSt100.billing_cycles 0 = some exBC100 ∧
    getTimeBucket (exBC100.days_overdue.getD 0) = TimeBucket.b61_180 ∧
    (((exPaymentCnt 441 13).retry_sequence_nb > 12 →
      handle_retry exSt100 (exPaymentCnt 441 13) 0 = (.ok (exPaymentCnt 441 13), exSt100)) ∧
    ((exPaymentCnt 441 13).retry_sequence_nb = 12 →
      ∃ q, handle_retry exSt100 (exPaymentCnt 441 13) 0 =
          (.ok q, { exSt100 with created := exSt100.created ++ [q] }) ∧
        q.date = getScheduledDate .friday_eom
          (balanceDueDateOf exSt100 (exPaymentCnt 441 13).account_id) 0 ∧
        q.track = some PaymentTrack.BANK_CARD)) :=
  ⟨by decide, rfl, rfl, rfl, rfl,
    forced_backoff_exhaustion exSt100 (exPaymentCnt 441 13) 0 441 0 exBC100
      (by decide) rfl rfl rfl rfl⟩

/-- C7 counterexample: the classifier does not fail on negative input; it
silently classifies minus one into the 0-30D bucket. -/
theorem time_bucket_negative_cex : getTimeBucket (-1) = TimeBucket.b0_30 := by
  decide

/-- C7 (amended): every negative days-overdue input is silently
classified into the 0-30D bucket, and the orchestrator's days-overdue
computation clamps negative differences to zero, so no negative input
ever fails loudly. -/
theorem time_bucket_negative_amended (d : ℤ) (hneg : d < 0) :
    getTimeBucket d = TimeBucket.b0_30 ∧
      ∀ r e : ℤ, 0 ≤ days_overdue_of r e := by
  constructor
  · simp only [getTimeBucket]
    rw [if_pos (by omega)]
  · intro r e
    exact le_max_left _ _

/-- C7 witness: the amended classifier behaviour at minus five. -/
theorem time_bucket_negative_amended_witness :
    ((-5 : ℤ) < 0) ∧
    (getTimeBucket (-5) = TimeBucket.b0_30 ∧
      ∀ r e : ℤ, 0 ≤ days_overdue_of r e) :=
  ⟨by decide, time_bucket_negative_amended (-5) (by decide)⟩

/-- C8: getNextFriday always returns a Friday, never the same calendar
day it is given, and in fact a strictly later day; in particular when the
input is itself a Friday the result is strictly after it. -/
theorem next_friday_claim (z : ℤ) :
    weekday (getNextFriday z) = 5 ∧ getNextFriday z ≠ z ∧ z < getNextFriday z := by
  obtain ⟨h1, h2, h3⟩ := getNextFriday_spec z
  exact ⟨h1, by omega, h2⟩

/-- C9: the strictly-after half of the claim holds on every input, but
the month-selection half does not: on 2025-01-31 (epoch day 20119, a
Friday and the last Friday of January) the source returns 2025-03-28
(epoch day 20175), the last Friday of March, because setMonth overflows
January 31 into March 3; the specified last Friday of the following
month is 2025-02-28 (epoch day 20147). -/
theorem eom_friday_month_skip_eval :
    (∀ z : ℤ, z < getLastFridayOfMonth z) ∧
    cyear 20119 = 2025 ∧ cmonth 20119 = 1 ∧ cday 20119 = 31 ∧ weekday 20119 = 5 ∧
    getLastFridayOfMonth 20119 = 20175 ∧
    cyear 20175 = 2025 ∧ cmonth 20175 = 3 ∧ cday 20175 = 28 ∧
    specEndOfMonthFriday 20119 = 20147 ∧
    cyear 20147 = 2025 ∧ cmonth 20147 = 2 ∧ cday 20147 = 28 := by
  refine ⟨getLastFridayOfMonth_gt, ?_⟩
  decide

/-- C10: every Not Possible code resolves, in every bucket and at every
retry count, to the distinct retry-not-possible error with no record
created and the state untouched; that outcome is a different error from
the unknown-code error, which is what a code outside the rule-table
universe (such as 999) produces. -/
theorem not_possible_distinct_error (st : St) (p : Payment) (now : ℤ) (c : ℤ)
    (bcid : ℕ) (bc : BillingCycle)
    (hmem : c ∈ NOT_POSSIBLE_CODES)
    (hc : p.code = some c) (hb : p.billing_cycle_id = some bcid)
    (hst : st.billing_cycles bcid = some bc) :
    handle_retry st p now = (.error (.retryNotPossible c), st) ∧
    (∀ (c2 : ℤ) (b2 : TimeBucket),
      RetryError.retryNotPossible c ≠ RetryError.unknownFailureCode c2 b2) ∧
    (∀ p2 : Payment, p2.code = some 999 → p2.billing_cycle_id = some bcid →
      handle_retry st p2 now =
        (.error (.unknownFailureCode 999 (getTimeBucket (bc.days_overdue.getD 0))), st)) := by
  refine ⟨?_, ?_, ?_⟩
  · have hkey := handle_retry_eq st p now c bcid bc hc hb hst
    rw [effectiveAction_not_possible c _ _ hmem] at hkey
    exact hkey
  · intro c2 b2 hEq
    exact RetryError.noConfusion hEq
  · intro p2 hc2 hb2
    have hkey := handle_retry_eq st p2 now 999 bcid bc hc2 hb2 hst
    have h999 : getRetryAction 999 (getTimeBucket (bc.days_overdue.getD 0)) = none := by
      generalize getTimeBucket (bc.days_overdue.getD 0) = b
      cases b <;> decide
    have heff : effectiveAction 999 (getTimeBucket (bc.days_overdue.getD 0))
        p2.retry_sequence_nb = none := by
      simp only [effectiveAction]
      rw [if_neg (by rintro ⟨hx1, hx2, hx3⟩; exact absurd hx2 (by decide))]
      exact h999
    rw [heff] at hkey
    exact hkey

/-- C10 witness: code 444 with zero days overdue. -/
theorem not_possible_distinct_error_witness :
    ((444 : ℤ) ∈ NOT_POSSIBLE_CODES) ∧
    (exPayment 444).code = some 444 ∧
    (exPayment 444).billing_cycle_id = some 0 ∧
    exSt.billing_cycles 0 = some exBC ∧
    (handle_retry exSt (exPayment 444) 0 =
        (.error (.retryNotPossible 444), exSt) ∧
    (∀ (c2 : ℤ) (b2 : TimeBucket),
      RetryError.retryNotPossible 444 ≠ RetryError.unknownFailureCode c2 b2) ∧
    (∀ p2 : Payment, p2.code = some 999 → p2.billing_cycle_id = some 0 →
      handle_retry exSt p2 0 =
        (.error (.unknownFailureCode 999 (getTimeBucket (exBC.days_overdue.getD 0))), exSt))) :=
  ⟨by decide, rfl, rfl, rfl,
    not_possible_distinct_error exSt (exPayment 444) 0 444 0 exBC
      (by decide) rfl rfl rfl⟩

end Retry
